import Mathlib

/-!
Shallow embedding of the `Sensor` lifecycle controller of the ModularSensors
library (src/SensorBase.h) together with the one concrete driver routine
present in this source slice, `DigiXBeeCellularBypass::addSingleMeasurementResult`
(src/modems/DigiXBeeCellularBypass.cpp), and proofs about the result
accumulator, the timing gates, the power cycle and the update loop.

Only the header `SensorBase.h` of the controller is in the slice; the bodies
of the `Sensor` member functions live in `SensorBase.cpp`, which is absent,
so those operations are modelled from the specification (each doc comment
says so).  Machine integers are modelled as `Nat`/`Int`; the `float` result
channels are modelled as `ℚ`, which makes accumulation and averaging exact.
-/

/-- `MAX_NUMBER_VARS` from src/SensorBase.h line 27: the largest number of
variables from a single sensor. -/
def MAX_NUMBER_VARS : Nat := 8

/-- The sentinel result value `-9999`, meaning "no valid reading". -/
def SENTINEL : ℚ := -9999

/-- The state of a `Sensor` (the data members of the class declared in
src/SensorBase.h lines 382-488).  The result channels `sensorValues` and the
good-sample counters `numberGoodMeasurementsMade` are total functions from
the slot index; only slots below `numReturnedVars` are meaningful.  The
status bitfield is a `Nat` holding the 8-bit code documented at
src/SensorBase.h lines 121-148. -/
structure Sensor where
  numReturnedVars : Nat
  measurementsToAverage : Nat
  warmUpTime_ms : Nat
  stabilizationTime_ms : Nat
  measurementTime_ms : Nat
  powerPin : Int
  dataPin : Int
  millisPowerOn : Nat
  millisSensorActivated : Nat
  millisMeasurementRequested : Nat
  sensorStatus : Nat
  sensorValues : Nat → ℚ
  numberGoodMeasurementsMade : Nat → ℕ

/-- Modelled from the spec: the `Sensor` constructor (declared at
src/SensorBase.h lines 60-64; SensorBase.cpp is not in the slice).  The
mutable state starts cleared: status 0, all timestamps 0 (meaning "stage not
started"), every channel at the sentinel with a zero good-sample counter. -/
def Sensor.mkSensor (numReturnedVars warmUpTime_ms stabilizationTime_ms
    measurementTime_ms : Nat) (powerPin dataPin : Int)
    (measurementsToAverage : Nat) : Sensor :=
  { numReturnedVars := numReturnedVars
    measurementsToAverage := measurementsToAverage
    warmUpTime_ms := warmUpTime_ms
    stabilizationTime_ms := stabilizationTime_ms
    measurementTime_ms := measurementTime_ms
    powerPin := powerPin
    dataPin := dataPin
    millisPowerOn := 0
    millisSensorActivated := 0
    millisMeasurementRequested := 0
    sensorStatus := 0
    sensorValues := fun _ => SENTINEL
    numberGoodMeasurementsMade := fun _ => 0 }

/-- Modelled from the spec: `Sensor::clearValues` (declared at
src/SensorBase.h line 272).  Resets every declared channel to the sentinel
and its good-sample counter to 0. -/
def clearValues (s : Sensor) : Sensor :=
  { s with
    sensorValues := fun i =>
      if i < s.numReturnedVars then SENTINEL else s.sensorValues i
    numberGoodMeasurementsMade := fun i =>
      if i < s.numReturnedVars then 0 else s.numberGoodMeasurementsMade i }

/-- Modelled from the spec: `Sensor::verifyAndAddMeasurementResult`, float
overload (declared at src/SensorBase.h line 281).  No-op when the slot is
outside the declared range or the value equals the sentinel; otherwise adds
the value into the channel's running sum — the stored value holds the
sentinel while the counter is 0, so the first good value replaces it — and
increments the channel's good-sample counter. -/
def verifyAndAddMeasurementResult (s : Sensor) (slot : Nat) (v : ℚ) : Sensor :=
  if slot < s.numReturnedVars ∧ ¬ v = SENTINEL then
    { s with
      sensorValues := fun j =>
        if j = slot then
          if s.numberGoodMeasurementsMade slot = 0 then v
          else s.sensorValues slot + v
        else s.sensorValues j
      numberGoodMeasurementsMade := fun j =>
        if j = slot then s.numberGoodMeasurementsMade slot + 1
        else s.numberGoodMeasurementsMade j }
  else s

/-- Modelled from the spec: `Sensor::verifyAndAddMeasurementResult`, int16_t
overload (declared at src/SensorBase.h lines 290-291).  Integer input is
unified into the floating accumulation. -/
def verifyAndAddMeasurementResultInt (s : Sensor) (slot : Nat) (v : Int) :
    Sensor :=
  verifyAndAddMeasurementResult s slot (v : ℚ)

/-- Modelled from the spec: `Sensor::averageMeasurements` (declared at
src/SensorBase.h line 297).  For each declared channel whose good-sample
counter is positive, the stored value (the running sum) is replaced by the
sum divided by the counter; channels with zero good samples stay at the
sentinel. -/
def averageMeasurements (s : Sensor) : Sensor :=
  { s with
    sensorValues := fun i =>
      if i < s.numReturnedVars ∧ 0 < s.numberGoodMeasurementsMade i then
        s.sensorValues i / (s.numberGoodMeasurementsMade i : ℚ)
      else s.sensorValues i }

/-- The running sum held by a channel: 0 while no good sample has been
accumulated (the stored field then holds the sentinel), otherwise the stored
value itself. -/
def chanSum (s : Sensor) (i : Nat) : ℚ :=
  if s.numberGoodMeasurementsMade i = 0 then 0 else s.sensorValues i

/-- A sequence of driver calls to `verifyAndAddMeasurementResult`, one
`(slot, value)` pair per call, applied left to right. -/
def addResults (s : Sensor) (rs : List (Nat × ℚ)) : Sensor :=
  rs.foldl (fun t p => verifyAndAddMeasurementResult t p.1 p.2) s

/-- The non-sentinel values a call sequence feeds to channel `c`. -/
def goodFor (c : Nat) (rs : List (Nat × ℚ)) : List ℚ :=
  (rs.filter (fun p => decide (p.1 = c ∧ ¬ p.2 = SENTINEL))).map Prod.snd

/-- Modelled from the spec: `Sensor::powerUp` (declared at
src/SensorBase.h line 184).  Drives the power pin active if one is
configured and then records the power-on timestamp; sets the
power-attempted and power-succeeded status bits (bits 1 and 2). -/
def powerUp (now : Nat) (s : Sensor) : Sensor :=
  { s with
    millisPowerOn := if 0 ≤ s.powerPin then now else s.millisPowerOn
    sensorStatus := s.sensorStatus ||| 0b00000110 }

/-- Modelled from the spec: `Sensor::powerDown` (declared at
src/SensorBase.h line 193).  Drives the pin inactive, clears the power-on
timestamp, and clears the activation and measurement status bits
(bits 3-6) while preserving the setup bit. -/
def powerDown (s : Sensor) : Sensor :=
  { s with
    millisPowerOn := 0
    sensorStatus := s.sensorStatus &&& 0b10000111 }

/-- Modelled from the spec: `Sensor::isWarmedUp` (declared at
src/SensorBase.h line 337).  Unconditionally true when no power pin is
configured; otherwise true exactly when at least `warmUpTime_ms` has
elapsed since the recorded power-on timestamp (boundary inclusive). -/
def isWarmedUp (s : Sensor) (now : Nat) : Bool :=
  if s.powerPin < 0 then true
  else decide (s.warmUpTime_ms ≤ now - s.millisPowerOn)

/-- Modelled from the spec: `Sensor::isMeasurementComplete` (declared at
src/SensorBase.h line 373).  True immediately when no measurement is
pending (status bit 6 clear); otherwise true exactly when at least
`measurementTime_ms` has elapsed since the measurement-request
timestamp. -/
def isMeasurementComplete (s : Sensor) (now : Nat) : Bool :=
  if s.sensorStatus.testBit 6 = false then true
  else decide (s.measurementTime_ms ≤ now - s.millisMeasurementRequested)

/-- The observable steps of one `update` cycle, recorded as a trace so that
"hook H was invoked" is a statement about the run. -/
inductive Event where
  | powerOn : Event
  | wakeHook : Event
  | startMeas : Nat → Event
  | addMeas : Nat → Event
  | average : Event
  | notify : Event
deriving DecidableEq

/-- A concrete device driver: the abstract hooks a `Sensor` subclass
overrides (src/SensorBase.h lines 209, 243, 258).  Each hook transforms the
sensor state and reports success; the per-iteration index lets a driver
return different readings on different sampling iterations. -/
structure Driver where
  wake : Sensor → Sensor × Bool
  startSingleMeasurement : Nat → Sensor → Sensor × Bool
  addSingleMeasurementResult : Nat → Sensor → Sensor × Bool

/-- The sampling loop of `update`: `n` remaining iterations starting at
iteration index `i`.  Each iteration runs the start hook, the
measurement-completion wait (a pure time delay, invisible to the state),
and the add hook; hook failures are recorded in the sensor state by the
hooks themselves and never abort the loop. -/
def sampleLoop (d : Driver) : Nat → Nat → Sensor → Sensor × List Event
  | 0, _, s => (s, [])
  | n + 1, i, s =>
    let s1 := (d.startSingleMeasurement i s).1
    let s2 := (d.addSingleMeasurementResult i s1).1
    let r := sampleLoop d n (i + 1) s2
    (r.1, Event.startMeas i :: Event.addMeas i :: r.2)

/-- Steps 3-7 of the update sequence once the sensor is awake: wait for
stability (pure delay), clear the accumulator, run the sampling loop
`measurementsToAverage` times, average, and notify the registered
variables (the fan-out to the external consumers is abstracted into the
trace event). -/
def runCycle (d : Driver) (s : Sensor) : Sensor × List Event :=
  let r := sampleLoop d s.measurementsToAverage 0 (clearValues s)
  (averageMeasurements r.1, r.2 ++ [Event.average, Event.notify])

/-- The wake stage and everything after it (steps 2-7 of the update
sequence), with the events of the power stage passed in as `pre`: if the
sensor is not already awake, run the wake hook; on wake failure set the
error bit and return failure immediately — nothing further runs; otherwise
run the measurement cycle and report success. -/
def wakeAndRun (d : Driver) (s : Sensor) (pre : List Event) :
    Sensor × Bool × List Event :=
  if s.sensorStatus.testBit 4 = true then
    let r := runCycle d s
    (r.1, true, pre ++ r.2)
  else
    let w := d.wake s
    if w.2 = true then
      let r := runCycle d w.1
      (r.1, true, pre ++ Event.wakeHook :: r.2)
    else
      ({ w.1 with sensorStatus := w.1.sensorStatus ||| 0b10000000 }, false,
        pre ++ [Event.wakeHook])

/-- Modelled from the spec: `Sensor::update` (declared at
src/SensorBase.h line 175).  If a power pin is configured and power has not
succeeded yet, power up and wait for warm-up; then the wake stage and the
measurement cycle of `wakeAndRun`.  The overall result is success exactly
when the wake stage succeeded; blocking waits are pure delays and do not
appear in the state. -/
def update (d : Driver) (now : Nat) (s : Sensor) : Sensor × Bool × List Event :=
  if 0 ≤ s.powerPin ∧ s.sensorStatus.testBit 2 = false then
    wakeAndRun d (powerUp now s) [Event.powerOn]
  else
    wakeAndRun d s []

/-- Slot of the RSSI channel of a modem.  The defining header
(LoggerModem.h) is outside this source slice; the value is immaterial to
the claims proved here because the sentinel path never reaches a slot. -/
def RSSI_VAR_NUM : Nat := 0

/-- Slot of the percent-signal channel of a modem (LoggerModem.h, outside
the slice). -/
def PERCENT_SIGNAL_VAR_NUM : Nat := 1

/-- Embedding of `DigiXBeeCellularBypass::addSingleMeasurementResult`
(src/modems/DigiXBeeCellularBypass.cpp lines 106-147).  `rssi` and
`percent` start at the int16_t sentinel `-9999`; only when status bit 6
(measurement start succeeded) is set does the routine query the modem —
the query `getSignalQuality` plus the conversions `getRSSIFromCSQ` /
`getPctFromCSQ` live outside the slice and are abstracted as the oracle
`modem`.  Both values are fed through `verifyAndAddMeasurementResult`, the
measurement-request timestamp is unset, status bits 5 and 6 are cleared
with the mask `0b10011111`, and `success` (never modified) is returned. -/
def addSingleMeasurementResultXBee (modem : Sensor → Int × Int) (s : Sensor) :
    Sensor × Bool :=
  let rp : Int × Int :=
    if s.sensorStatus.testBit 6 then modem s else (-9999, -9999)
  let s1 := verifyAndAddMeasurementResultInt s RSSI_VAR_NUM rp.1
  let s2 := verifyAndAddMeasurementResultInt s1 PERCENT_SIGNAL_VAR_NUM rp.2
  ({ s2 with
      millisMeasurementRequested := 0
      sensorStatus := s2.sensorStatus &&& 0b10011111 }, true)

/-- `verifyAndAddMeasurementResult` is a no-op outside the declared slot
range and on the sentinel value. -/
theorem verifyAndAdd_noop (s : Sensor) (slot : Nat) (v : ℚ)
    (h : s.numReturnedVars ≤ slot ∨ v = SENTINEL) :
    verifyAndAddMeasurementResult s slot v = s := by
  unfold verifyAndAddMeasurementResult
  rcases h with h | h
  · rw [if_neg]
    intro hc
    exact absurd hc.1 (not_lt.mpr h)
  · rw [if_neg]
    intro hc
    exact hc.2 h

/-- `verifyAndAddMeasurementResult` only touches the channel values and the
good-sample counters. -/
theorem verifyAndAdd_frame (s : Sensor) (slot : Nat) (v : ℚ) :
    (verifyAndAddMeasurementResult s slot v).numReturnedVars
        = s.numReturnedVars ∧
    (verifyAndAddMeasurementResult s slot v).measurementsToAverage
        = s.measurementsToAverage ∧
    (verifyAndAddMeasurementResult s slot v).sensorStatus = s.sensorStatus ∧
    (verifyAndAddMeasurementResult s slot v).millisMeasurementRequested
        = s.millisMeasurementRequested := by
  unfold verifyAndAddMeasurementResult
  split <;> exact ⟨rfl, rfl, rfl, rfl⟩

/-- A good value lands in its channel: the counter grows by one and the
running sum grows by the value. -/
theorem verifyAndAdd_hit (s : Sensor) (slot : Nat) (v : ℚ)
    (hs : slot < s.numReturnedVars) (hv : ¬ v = SENTINEL) :
    (verifyAndAddMeasurementResult s slot v).numberGoodMeasurementsMade slot
      = s.numberGoodMeasurementsMade slot + 1 ∧
    chanSum (verifyAndAddMeasurementResult s slot v) slot
      = chanSum s slot + v := by
  unfold verifyAndAddMeasurementResult chanSum
  rw [if_pos ⟨hs, hv⟩]
  refine ⟨by simp, ?_⟩
  by_cases h0 : s.numberGoodMeasurementsMade slot = 0 <;> simp [h0]

/-- Channels other than the target keep their value and counter. -/
theorem verifyAndAdd_miss (s : Sensor) (slot : Nat) (v : ℚ) (j : Nat)
    (hj : ¬ j = slot) :
    (verifyAndAddMeasurementResult s slot v).sensorValues j
        = s.sensorValues j ∧
    (verifyAndAddMeasurementResult s slot v).numberGoodMeasurementsMade j
        = s.numberGoodMeasurementsMade j := by
  unfold verifyAndAddMeasurementResult
  split
  · exact ⟨by simp [hj], by simp [hj]⟩
  · exact ⟨rfl, rfl⟩

/-- Unfolding `goodFor` over the head of the call sequence. -/
theorem goodFor_cons (c : Nat) (p : Nat × ℚ) (rs : List (Nat × ℚ)) :
    goodFor c (p :: rs)
      = (if p.1 = c ∧ ¬ p.2 = SENTINEL then [p.2] else []) ++ goodFor c rs := by
  unfold goodFor
  rw [List.filter_cons]
  by_cases h : p.1 = c ∧ ¬ p.2 = SENTINEL <;> simp [h]

/-- Invariant of a whole call sequence: the declared range is untouched,
and at each channel the counter grows by the number of good values fed to
that channel while the running sum grows by their sum. -/
theorem addResults_spec (c : Nat) (rs : List (Nat × ℚ)) :
    ∀ (s : Sensor), c < s.numReturnedVars →
      (addResults s rs).numReturnedVars = s.numReturnedVars ∧
      (addResults s rs).numberGoodMeasurementsMade c
        = s.numberGoodMeasurementsMade c + (goodFor c rs).length ∧
      chanSum (addResults s rs) c = chanSum s c + (goodFor c rs).sum := by
  induction rs with
  | nil =>
    intro s hc
    simp [addResults, goodFor]
  | cons p rs ih =>
    intro s hc
    have hfold : addResults s (p :: rs)
        = addResults (verifyAndAddMeasurementResult s p.1 p.2) rs := rfl
    have hnum : (verifyAndAddMeasurementResult s p.1 p.2).numReturnedVars
        = s.numReturnedVars := (verifyAndAdd_frame s p.1 p.2).1
    obtain ⟨h1, h2, h3⟩ :=
      ih (verifyAndAddMeasurementResult s p.1 p.2) (by rw [hnum]; exact hc)
    rw [hfold, goodFor_cons]
    by_cases hp : p.1 = c ∧ ¬ p.2 = SENTINEL
    · obtain ⟨hpc, hpv⟩ := hp
      subst hpc
      obtain ⟨hcnt, hsum⟩ := verifyAndAdd_hit s p.1 p.2 hc hpv
      refine ⟨h1.trans hnum, ?_, ?_⟩
      · rw [h2, hcnt]
        simp [hpv]
        omega
      · rw [h3, hsum]
        simp [hpv]
        ring
    · have hmiss : (verifyAndAddMeasurementResult s p.1 p.2).sensorValues c
            = s.sensorValues c ∧
          (verifyAndAddMeasurementResult s p.1 p.2).numberGoodMeasurementsMade c
            = s.numberGoodMeasurementsMade c := by
        by_cases hpc : p.1 = c
        · have : ¬ ¬ p.2 = SENTINEL := fun hv => hp ⟨hpc, hv⟩
          have hnoop := verifyAndAdd_noop s p.1 p.2 (Or.inr (not_not.mp this))
          rw [hnoop]
          exact ⟨rfl, rfl⟩
        · exact verifyAndAdd_miss s p.1 p.2 c (fun h => hpc h.symm)
      have hchan : chanSum (verifyAndAddMeasurementResult s p.1 p.2) c
          = chanSum s c := by
        unfold chanSum
        rw [hmiss.1, hmiss.2]
      refine ⟨h1.trans hnum, ?_, ?_⟩
      · rw [h2, hmiss.2]
        simp [hp]
      · rw [h3, hchan]
        simp [hp]

/-- `clearValues` puts every declared channel at the sentinel with a zero
counter. -/
theorem clearValues_hit (s : Sensor) (i : Nat) (hi : i < s.numReturnedVars) :
    (clearValues s).sensorValues i = SENTINEL ∧
    (clearValues s).numberGoodMeasurementsMade i = 0 := by
  unfold clearValues
  exact ⟨by simp [hi], by simp [hi]⟩

/-- `averageMeasurements` never touches the good-sample counters nor any
configuration field. -/
theorem average_frame (s : Sensor) :
    (averageMeasurements s).numberGoodMeasurementsMade
        = s.numberGoodMeasurementsMade ∧
    (averageMeasurements s).numReturnedVars = s.numReturnedVars := ⟨rfl, rfl⟩

/-- On a state whose declared channels all have zero good samples,
`averageMeasurements` is the identity. -/
theorem average_id_of_empty (t : Sensor)
    (h : ∀ i, i < t.numReturnedVars → t.numberGoodMeasurementsMade i = 0) :
    averageMeasurements t = t := by
  unfold averageMeasurements
  have hfun : (fun i =>
      if i < t.numReturnedVars ∧ 0 < t.numberGoodMeasurementsMade i
      then t.sensorValues i / (t.numberGoodMeasurementsMade i : ℚ)
      else t.sensorValues i) = t.sensorValues := by
    funext i
    by_cases hi : i < t.numReturnedVars
    · rw [if_neg]
      intro hc
      rw [h i hi] at hc
      exact absurd hc.2 (lt_irrefl 0)
    · rw [if_neg]
      intro hc
      exact hi hc.1
  rw [hfun]

/-- C7: `clearValues()` followed by `averageMeasurements()` with no
intervening additions leaves every declared channel at the sentinel `-9999`
with a zero good-sample counter, and `averageMeasurements()` is the
identity on the freshly cleared state. -/
theorem claim_clear_then_average_identity (s : Sensor) :
    averageMeasurements (clearValues s) = clearValues s ∧
    ∀ i, i < s.numReturnedVars →
      (averageMeasurements (clearValues s)).sensorValues i = SENTINEL ∧
      (averageMeasurements (clearValues s)).numberGoodMeasurementsMade i
        = 0 := by
  have hid : averageMeasurements (clearValues s) = clearValues s := by
    refine average_id_of_empty (clearValues s) ?_
    intro i hi
    exact (clearValues_hit s i hi).2
  refine ⟨hid, ?_⟩
  intro i hi
  rw [hid]
  exact clearValues_hit s i hi

/-- Witness for C7 at a concrete one-channel sensor. -/
theorem claim_clear_then_average_identity_witness :
    averageMeasurements (clearValues (Sensor.mkSensor 1 100 0 50 22 7 3))
        = clearValues (Sensor.mkSensor 1 100 0 50 22 7 3) ∧
    (averageMeasurements (clearValues (Sensor.mkSensor 1 100 0 50 22 7 3))).sensorValues 0
        = SENTINEL ∧
    (averageMeasurements (clearValues (Sensor.mkSensor 1 100 0 50 22 7 3))).numberGoodMeasurementsMade 0
        = 0 := by
  obtain ⟨h1, h2⟩ :=
    claim_clear_then_average_identity (Sensor.mkSensor 1 100 0 50 22 7 3)
  exact ⟨h1, (h2 0 (by decide)).1, (h2 0 (by decide)).2⟩

/-- C2: `verifyAndAddMeasurementResult(slot, value)` is a complete no-op
when the slot is outside the declared range or the value is the sentinel
`-9999`; otherwise it adds the value to the channel's running sum and
increments exactly that channel's good-sample counter by one, for the
float overload and for the int16_t overload alike. -/
theorem claim_verifyAndAdd_cases (s : Sensor) (slot : Nat) (v : ℚ) (w : Int) :
    ((s.numReturnedVars ≤ slot ∨ v = SENTINEL) →
      verifyAndAddMeasurementResult s slot v = s) ∧
    (slot < s.numReturnedVars → ¬ v = SENTINEL →
      (verifyAndAddMeasurementResult s slot v).numberGoodMeasurementsMade slot
        = s.numberGoodMeasurementsMade slot + 1 ∧
      chanSum (verifyAndAddMeasurementResult s slot v) slot
        = chanSum s slot + v ∧
      ∀ j, ¬ j = slot →
        (verifyAndAddMeasurementResult s slot v).sensorValues j
          = s.sensorValues j ∧
        (verifyAndAddMeasurementResult s slot v).numberGoodMeasurementsMade j
          = s.numberGoodMeasurementsMade j) ∧
    ((s.numReturnedVars ≤ slot ∨ w = -9999) →
      verifyAndAddMeasurementResultInt s slot w = s) ∧
    (slot < s.numReturnedVars → ¬ w = -9999 →
      (verifyAndAddMeasurementResultInt s slot w).numberGoodMeasurementsMade slot
        = s.numberGoodMeasurementsMade slot + 1 ∧
      chanSum (verifyAndAddMeasurementResultInt s slot w) slot
        = chanSum s slot + (w : ℚ)) := by
  have hcast : ((w : ℚ) = SENTINEL) ↔ (w = -9999) := by
    unfold SENTINEL
    constructor
    · intro h
      exact_mod_cast h
    · intro h
      rw [h]
      norm_num
  refine ⟨?_, ?_, ?_, ?_⟩
  · exact verifyAndAdd_noop s slot v
  · intro hs hv
    obtain ⟨h1, h2⟩ := verifyAndAdd_hit s slot v hs hv
    exact ⟨h1, h2, fun j hj => verifyAndAdd_miss s slot v j hj⟩
  · intro h
    unfold verifyAndAddMeasurementResultInt
    refine verifyAndAdd_noop s slot (w : ℚ) ?_
    rcases h with h | h
    · exact Or.inl h
    · exact Or.inr (hcast.mpr h)
  · intro hs hw
    unfold verifyAndAddMeasurementResultInt
    obtain ⟨h1, h2⟩ :=
      verifyAndAdd_hit s slot (w : ℚ) hs (fun hc => hw (hcast.mp hc))
    exact ⟨h1, h2⟩

/-- Witness for C2: the no-op on a sentinel float, a real addition at
slot 0, and the int16_t overload on a non-sentinel integer, all at a
concrete one-channel sensor. -/
theorem claim_verifyAndAdd_cases_witness :
    verifyAndAddMeasurementResult (Sensor.mkSensor 1 100 0 50 22 7 3) 0 SENTINEL
        = Sensor.mkSensor 1 100 0 50 22 7 3 ∧
    (verifyAndAddMeasurementResult (Sensor.mkSensor 1 100 0 50 22 7 3) 0 10).numberGoodMeasurementsMade 0
        = (Sensor.mkSensor 1 100 0 50 22 7 3).numberGoodMeasurementsMade 0 + 1 ∧
    (verifyAndAddMeasurementResultInt (Sensor.mkSensor 1 100 0 50 22 7 3) 0 12).numberGoodMeasurementsMade 0
        = (Sensor.mkSensor 1 100 0 50 22 7 3).numberGoodMeasurementsMade 0 + 1 := by
  refine ⟨?_, ?_, ?_⟩
  · exact (claim_verifyAndAdd_cases (Sensor.mkSensor 1 100 0 50 22 7 3) 0 SENTINEL 0).1
      (Or.inr rfl)
  · exact ((claim_verifyAndAdd_cases (Sensor.mkSensor 1 100 0 50 22 7 3) 0 10 0).2.1
      (by decide) (by decide)).1
  · exact ((claim_verifyAndAdd_cases (Sensor.mkSensor 1 100 0 50 22 7 3) 0 10 12).2.2.2
      (by decide) (by decide)).1

/-- The sensor of the spec scenario: one channel, `warmUpTime=100`,
`stabilizationTime=0`, `measurementTime=50`, `measurementsToAverage=3`,
power pin 22, data pin 7. -/
def scenarioSensor : Sensor := Sensor.mkSensor 1 100 0 50 22 7 3

/-- The three readings the scenario driver feeds channel 0, one per
sampling iteration: `10.0`, the sentinel `-9999`, `12.0`. -/
def scenarioFeed : List (Nat × ℚ) := [(0, 10), (0, -9999), (0, 12)]

/-- C1: after `clearValues()` and any sequence of
`verifyAndAddMeasurementResult` calls feeding `N ≥ 1` non-sentinel values
to a declared channel, `averageMeasurements()` replaces that channel's
stored value with the arithmetic mean of those `N` values and leaves its
good-sample counter at `N`; in particular the scenario feed
`10.0, -9999, 12.0` on channel 0 yields the averaged result `11` with
good-sample count `2`. -/
theorem claim_average_is_mean :
    (∀ (s : Sensor) (rs : List (Nat × ℚ)) (c : Nat),
      c < s.numReturnedVars → 1 ≤ (goodFor c rs).length →
      (averageMeasurements (addResults (clearValues s) rs)).sensorValues c
        = (goodFor c rs).sum / ((goodFor c rs).length : ℚ) ∧
      (averageMeasurements (addResults (clearValues s) rs)).numberGoodMeasurementsMade c
        = (goodFor c rs).length) ∧
    ((averageMeasurements (addResults (clearValues scenarioSensor) scenarioFeed)).sensorValues 0
        = 11 ∧
     (averageMeasurements (addResults (clearValues scenarioSensor) scenarioFeed)).numberGoodMeasurementsMade 0
        = 2) := by
  have hgen : ∀ (s : Sensor) (rs : List (Nat × ℚ)) (c : Nat),
      c < s.numReturnedVars → 1 ≤ (goodFor c rs).length →
      (averageMeasurements (addResults (clearValues s) rs)).sensorValues c
        = (goodFor c rs).sum / ((goodFor c rs).length : ℚ) ∧
      (averageMeasurements (addResults (clearValues s) rs)).numberGoodMeasurementsMade c
        = (goodFor c rs).length := by
    intro s rs c hc hN
    have hc0 : c < (clearValues s).numReturnedVars := hc
    obtain ⟨h1, h2, h3⟩ := addResults_spec c rs (clearValues s) hc0
    have hclr := clearValues_hit s c hc
    rw [hclr.2, Nat.zero_add] at h2
    have hsum0 : chanSum (clearValues s) c = 0 := by
      unfold chanSum
      rw [hclr.2]
      simp
    rw [hsum0, zero_add] at h3
    have hpos : 0 < (addResults (clearValues s) rs).numberGoodMeasurementsMade c := by
      omega
    have hval : (addResults (clearValues s) rs).sensorValues c
        = (goodFor c rs).sum := by
      unfold chanSum at h3
      rw [if_neg (by omega)] at h3
      exact h3
    have hcpos : c < (addResults (clearValues s) rs).numReturnedVars := by
      rw [h1]
      exact hc0
    have havg : (averageMeasurements (addResults (clearValues s) rs)).sensorValues c
        = if c < (addResults (clearValues s) rs).numReturnedVars ∧
             0 < (addResults (clearValues s) rs).numberGoodMeasurementsMade c
          then (addResults (clearValues s) rs).sensorValues c
               / ((addResults (clearValues s) rs).numberGoodMeasurementsMade c : ℚ)
          else (addResults (clearValues s) rs).sensorValues c := rfl
    constructor
    · rw [havg, if_pos ⟨hcpos, hpos⟩, hval, h2]
    · have : (averageMeasurements (addResults (clearValues s) rs)).numberGoodMeasurementsMade c
          = (addResults (clearValues s) rs).numberGoodMeasurementsMade c := rfl
      rw [this, h2]
  refine ⟨hgen, ?_⟩
  have hg : goodFor 0 scenarioFeed = [10, 12] := by decide
  have hlen : 1 ≤ (goodFor 0 scenarioFeed).length := by
    rw [hg]
    decide
  obtain ⟨ha, hb⟩ := hgen scenarioSensor scenarioFeed 0 (by decide) hlen
  rw [hg] at ha hb
  constructor
  · rw [ha]
    norm_num [List.sum_cons, List.sum_nil]
  · rw [hb]
    rfl

/-- Witness for C1: the general statement applied at the scenario inputs,
every hypothesis discharged there. -/
theorem claim_average_is_mean_witness :
    (averageMeasurements (addResults (clearValues scenarioSensor) scenarioFeed)).sensorValues 0
        = (goodFor 0 scenarioFeed).sum / ((goodFor 0 scenarioFeed).length : ℚ) ∧
    (averageMeasurements (addResults (clearValues scenarioSensor) scenarioFeed)).numberGoodMeasurementsMade 0
        = (goodFor 0 scenarioFeed).length :=
  claim_average_is_mean.1 scenarioSensor scenarioFeed 0 (by decide) (by decide)

/-- C4: with a configured power pin, `isWarmedUp()` is true exactly when
`now - powerOnTimestamp ≥ warmUpTime` (boundary inclusive); immediately
after `powerUp()` with `warmUpTime = 100` it is false, and it is true once
at least 100 time units have elapsed; with no power pin it is
unconditionally true. -/
theorem claim_isWarmedUp_gate (s : Sensor) (now t0 : Nat) :
    (s.powerPin < 0 → isWarmedUp s now = true) ∧
    (0 ≤ s.powerPin →
      (isWarmedUp s now = true ↔ s.warmUpTime_ms ≤ now - s.millisPowerOn)) ∧
    (0 ≤ s.powerPin → s.warmUpTime_ms = 100 →
      isWarmedUp (powerUp t0 s) t0 = false ∧
      ∀ dt, 100 ≤ dt → isWarmedUp (powerUp t0 s) (t0 + dt) = true) := by
  have hnl : ∀ h : 0 ≤ s.powerPin, ¬ s.powerPin < 0 := fun h => not_lt.mpr h
  refine ⟨?_, ?_, ?_⟩
  · intro h
    unfold isWarmedUp
    rw [if_pos h]
  · intro h
    unfold isWarmedUp
    rw [if_neg (hnl h)]
    simp
  · intro h h100
    have hpin : (powerUp t0 s).powerPin = s.powerPin := rfl
    have hwt : (powerUp t0 s).warmUpTime_ms = s.warmUpTime_ms := rfl
    have hms : (powerUp t0 s).millisPowerOn = t0 := by
      unfold powerUp
      simp [h]
    constructor
    · unfold isWarmedUp
      rw [hpin, if_neg (hnl h), hwt, hms]
      simp only [decide_eq_false_iff_not]
      omega
    · intro dt hdt
      unfold isWarmedUp
      rw [hpin, if_neg (hnl h), hwt, hms]
      simp only [decide_eq_true_eq]
      omega

/-- Witness for C4: a pinless sensor is always warm; right after powering
the scenario sensor at time 7 it is not warm, and 100 units later it is. -/
theorem claim_isWarmedUp_gate_witness :
    isWarmedUp (Sensor.mkSensor 1 100 0 50 (-1) 7 3) 0 = true ∧
    isWarmedUp (powerUp 7 scenarioSensor) 7 = false ∧
    isWarmedUp (powerUp 7 scenarioSensor) (7 + 100) = true := by
  refine ⟨?_, ?_, ?_⟩
  · exact (claim_isWarmedUp_gate (Sensor.mkSensor 1 100 0 50 (-1) 7 3) 0 0).1
      (by decide)
  · exact ((claim_isWarmedUp_gate scenarioSensor 0 7).2.2 (by decide)
      (by decide)).1
  · exact ((claim_isWarmedUp_gate scenarioSensor 0 7).2.2 (by decide)
      (by decide)).2 100 (by decide)

/-- C5: `powerDown()` zeroes the power-on timestamp and clears the awake
bit (4) and the measurement bits (5, 6) while leaving the setup bit (0)
unchanged; after a subsequent `powerUp()` with `warmUpTime > 0`,
`isWarmedUp()` is false again immediately. -/
theorem claim_powerDown_resets (s : Sensor) (t : Nat) :
    (powerDown s).millisPowerOn = 0 ∧
    (powerDown s).sensorStatus.testBit 4 = false ∧
    (powerDown s).sensorStatus.testBit 5 = false ∧
    (powerDown s).sensorStatus.testBit 6 = false ∧
    (powerDown s).sensorStatus.testBit 0 = s.sensorStatus.testBit 0 ∧
    (0 ≤ s.powerPin → 0 < s.warmUpTime_ms →
      isWarmedUp (powerUp t (powerDown s)) t = false) := by
  refine ⟨rfl, ?_, ?_, ?_, ?_, ?_⟩
  · show (s.sensorStatus &&& 135).testBit 4 = false
    rw [Nat.testBit_and, (by decide : Nat.testBit 135 4 = false),
      Bool.and_false]
  · show (s.sensorStatus &&& 135).testBit 5 = false
    rw [Nat.testBit_and, (by decide : Nat.testBit 135 5 = false),
      Bool.and_false]
  · show (s.sensorStatus &&& 135).testBit 6 = false
    rw [Nat.testBit_and, (by decide : Nat.testBit 135 6 = false),
      Bool.and_false]
  · show (s.sensorStatus &&& 135).testBit 0 = s.sensorStatus.testBit 0
    rw [Nat.testBit_and, (by decide : Nat.testBit 135 0 = true),
      Bool.and_true]
  · intro hpin hwarm
    have hp : (powerDown s).powerPin = s.powerPin := rfl
    have hw : (powerDown s).warmUpTime_ms = s.warmUpTime_ms := rfl
    have hms : (powerUp t (powerDown s)).millisPowerOn = t := by
      unfold powerUp
      rw [hp]
      simp [hpin]
    have hp2 : (powerUp t (powerDown s)).powerPin = s.powerPin := rfl
    have hw2 : (powerUp t (powerDown s)).warmUpTime_ms = s.warmUpTime_ms := rfl
    unfold isWarmedUp
    rw [hp2, if_neg (not_lt.mpr hpin), hw2, hms]
    simp only [decide_eq_false_iff_not]
    omega

/-- Witness for C5 at the scenario sensor, powered back up at time 5. -/
theorem claim_powerDown_resets_witness :
    (powerDown scenarioSensor).millisPowerOn = 0 ∧
    isWarmedUp (powerUp 5 (powerDown scenarioSensor)) 5 = false := by
  obtain ⟨h1, _, _, _, _, h6⟩ := claim_powerDown_resets scenarioSensor 5
  exact ⟨h1, h6 (by decide) (by decide)⟩

/-- A sensor state with a pending, successfully started measurement
(status bit 6 set), used to exercise the elapsed-time branch of
`isMeasurementComplete`. -/
def pendingSensor : Sensor :=
  { scenarioSensor with sensorStatus := 0b01000000 }

/-- C6: `isMeasurementComplete()` is true whenever
`now - measurementRequestTimestamp ≥ measurementTime`, and is true
immediately — independently of any elapsed time — whenever no measurement
status bit is pending (bit 6 clear). -/
theorem claim_isMeasurementComplete_gate (s : Sensor) (now : Nat) :
    (s.measurementTime_ms ≤ now - s.millisMeasurementRequested →
      isMeasurementComplete s now = true) ∧
    (s.sensorStatus.testBit 6 = false →
      ∀ t, isMeasurementComplete s t = true) := by
  constructor
  · intro h
    unfold isMeasurementComplete
    split
    · rfl
    · simpa using h
  · intro h t
    simp [isMeasurementComplete, h]

/-- Witness for C6: a pending measurement is complete 60 units after a
request at time 0 (measurement time 50), and with bit 6 clear the gate is
true at time 0 already. -/
theorem claim_isMeasurementComplete_gate_witness :
    isMeasurementComplete pendingSensor 60 = true ∧
    isMeasurementComplete scenarioSensor 0 = true := by
  refine ⟨?_, ?_⟩
  · exact (claim_isMeasurementComplete_gate pendingSensor 60).1 (by decide)
  · exact (claim_isMeasurementComplete_gate scenarioSensor 99).2 (by decide) 0

/-- Recognizer for start-hook events. -/
def isStartEv : Event → Bool
  | Event.startMeas _ => true
  | _ => false

/-- Recognizer for add-hook events. -/
def isAddEv : Event → Bool
  | Event.addMeas _ => true
  | _ => false

/-- The sampling loop records exactly one start event and one add event
per iteration, for any driver and any hook results. -/
theorem sampleLoop_events (d : Driver) :
    ∀ (n i : Nat) (s : Sensor),
      ((sampleLoop d n i s).2.filter isStartEv).length = n ∧
      ((sampleLoop d n i s).2.filter isAddEv).length = n := by
  intro n
  induction n with
  | zero =>
    intro i s
    simp [sampleLoop]
  | succ n ih =>
    intro i s
    obtain ⟨h1, h2⟩ := ih (i + 1)
      (d.addSingleMeasurementResult i (d.startSingleMeasurement i s).1).1
    refine ⟨?_, ?_⟩
    · show ((Event.startMeas i :: Event.addMeas i :: _).filter isStartEv).length
          = n + 1
      rw [List.filter_cons, List.filter_cons]
      simp [isStartEv, h1]
    · show ((Event.startMeas i :: Event.addMeas i :: _).filter isAddEv).length
          = n + 1
      rw [List.filter_cons, List.filter_cons]
      simp [isAddEv, h2]

/-- One full measurement cycle records exactly `measurementsToAverage`
start and add events and ends with the averaging and notification
events. -/
theorem runCycle_events (d : Driver) (s : Sensor) :
    ((runCycle d s).2.filter isStartEv).length = s.measurementsToAverage ∧
    ((runCycle d s).2.filter isAddEv).length = s.measurementsToAverage ∧
    ∃ q, (runCycle d s).2 = q ++ [Event.average, Event.notify] := by
  obtain ⟨h1, h2⟩ := sampleLoop_events d s.measurementsToAverage 0 (clearValues s)
  refine ⟨?_, ?_, ⟨(sampleLoop d s.measurementsToAverage 0 (clearValues s)).2, rfl⟩⟩
  · show (((sampleLoop d s.measurementsToAverage 0 (clearValues s)).2
        ++ [Event.average, Event.notify]).filter isStartEv).length
        = s.measurementsToAverage
    rw [List.filter_append, List.length_append, h1]
    simp [isStartEv]
  · show (((sampleLoop d s.measurementsToAverage 0 (clearValues s)).2
        ++ [Event.average, Event.notify]).filter isAddEv).length
        = s.measurementsToAverage
    rw [List.filter_append, List.length_append, h2]
    simp [isAddEv]

/-- When the wake hook of the driver fails (and, per the wake contract,
leaves the awake bit clear and the accumulator alone), the wake stage
returns failure with the error bit set, the awake bit clear, the
accumulator untouched, and a trace of exactly the power-stage events and
the wake event. -/
theorem wakeAndRun_wake_fails (d : Driver) (s : Sensor) (pre : List Event)
    (hAwake : s.sensorStatus.testBit 4 = false)
    (hFail : ∀ t, (d.wake t).2 = false)
    (hVals : ∀ t, (d.wake t).1.sensorValues = t.sensorValues)
    (hCnts : ∀ t, (d.wake t).1.numberGoodMeasurementsMade
        = t.numberGoodMeasurementsMade)
    (hBit4 : ∀ t, t.sensorStatus.testBit 4 = false →
        (d.wake t).1.sensorStatus.testBit 4 = false) :
    (wakeAndRun d s pre).2.1 = false ∧
    (wakeAndRun d s pre).1.sensorStatus.testBit 7 = true ∧
    (wakeAndRun d s pre).1.sensorStatus.testBit 4 = false ∧
    (wakeAndRun d s pre).1.sensorValues = s.sensorValues ∧
    (wakeAndRun d s pre).1.numberGoodMeasurementsMade
        = s.numberGoodMeasurementsMade ∧
    (wakeAndRun d s pre).2.2 = pre ++ [Event.wakeHook] := by
  unfold wakeAndRun
  rw [if_neg (by simp [hAwake]), if_neg (by simp [hFail s])]
  refine ⟨rfl, ?_, ?_, hVals s, hCnts s, rfl⟩
  · show ((d.wake s).1.sensorStatus ||| 128).testBit 7 = true
    rw [Nat.testBit_or, (by decide : Nat.testBit 128 7 = true), Bool.or_true]
  · show ((d.wake s).1.sensorStatus ||| 128).testBit 4 = false
    rw [Nat.testBit_or, (by decide : Nat.testBit 128 4 = false), Bool.or_false]
    exact hBit4 s hAwake

/-- C3: when the wake hook fails (observing the wake contract: awake bit
left unset, accumulator untouched), `update()` returns failure immediately
with the error bit set and the awake bit clear, no measurement is
attempted — no start or add event is in the trace — and every channel's
value and counter stay at their prior state. -/
theorem claim_update_wake_failure (d : Driver) (now : Nat) (s : Sensor)
    (hAwake : s.sensorStatus.testBit 4 = false)
    (hFail : ∀ t, (d.wake t).2 = false)
    (hVals : ∀ t, (d.wake t).1.sensorValues = t.sensorValues)
    (hCnts : ∀ t, (d.wake t).1.numberGoodMeasurementsMade
        = t.numberGoodMeasurementsMade)
    (hBit4 : ∀ t, t.sensorStatus.testBit 4 = false →
        (d.wake t).1.sensorStatus.testBit 4 = false) :
    (update d now s).2.1 = false ∧
    (update d now s).1.sensorStatus.testBit 7 = true ∧
    (update d now s).1.sensorStatus.testBit 4 = false ∧
    (update d now s).1.sensorValues = s.sensorValues ∧
    (update d now s).1.numberGoodMeasurementsMade
        = s.numberGoodMeasurementsMade ∧
    ∀ i, ¬ Event.startMeas i ∈ (update d now s).2.2 ∧
         ¬ Event.addMeas i ∈ (update d now s).2.2 := by
  unfold update
  by_cases hc : 0 ≤ s.powerPin ∧ s.sensorStatus.testBit 2 = false
  · rw [if_pos hc]
    have hA1 : (powerUp now s).sensorStatus.testBit 4 = false := by
      show (s.sensorStatus ||| 6).testBit 4 = false
      rw [Nat.testBit_or, (by decide : Nat.testBit 6 4 = false), Bool.or_false]
      exact hAwake
    obtain ⟨g1, g2, g3, g4, g5, g6⟩ := wakeAndRun_wake_fails d (powerUp now s)
      [Event.powerOn] hA1 hFail hVals hCnts hBit4
    refine ⟨g1, g2, g3, g4, g5, ?_⟩
    intro i
    rw [g6]
    constructor <;> simp
  · rw [if_neg hc]
    obtain ⟨g1, g2, g3, g4, g5, g6⟩ := wakeAndRun_wake_fails d s []
      hAwake hFail hVals hCnts hBit4
    refine ⟨g1, g2, g3, g4, g5, ?_⟩
    intro i
    rw [g6]
    constructor <;> simp

/-- A driver whose wake hook always fails, setting the error bit and
leaving everything else alone, as the wake contract requires. -/
def failingWakeDriver : Driver :=
  { wake := fun t =>
      ({ t with sensorStatus := t.sensorStatus ||| 0b10000000 }, false)
    startSingleMeasurement := fun _ t => (t, true)
    addSingleMeasurementResult := fun _ t => (t, true) }

/-- Witness for C3 at the scenario sensor under the always-failing
driver. -/
theorem claim_update_wake_failure_witness :
    (update failingWakeDriver 0 scenarioSensor).2.1 = false ∧
    (update failingWakeDriver 0 scenarioSensor).1.sensorStatus.testBit 7
        = true ∧
    (update failingWakeDriver 0 scenarioSensor).1.sensorStatus.testBit 4
        = false ∧
    (update failingWakeDriver 0 scenarioSensor).1.sensorValues
        = scenarioSensor.sensorValues := by
  obtain ⟨h1, h2, h3, h4, _, _⟩ :=
    claim_update_wake_failure failingWakeDriver 0 scenarioSensor
      (by decide)
      (fun t => rfl)
      (fun t => rfl)
      (fun t => rfl)
      (fun t ht => by
        show (t.sensorStatus ||| 128).testBit 4 = false
        rw [Nat.testBit_or, (by decide : Nat.testBit 128 4 = false),
          Bool.or_false]
        exact ht)
  exact ⟨h1, h2, h3, h4⟩

/-- When the wake stage goes through (or the sensor is already awake), the
whole cycle runs: the trace has exactly `measurementsToAverage` start and
add events — regardless of any hook failures — and ends with the averaging
and notification events. -/
theorem wakeAndRun_completes (d : Driver) (s : Sensor) (pre : List Event)
    (hWakeOk : ∀ t, (d.wake t).2 = true)
    (hWakeM : ∀ t, (d.wake t).1.measurementsToAverage
        = t.measurementsToAverage)
    (hpre1 : pre.filter isStartEv = [])
    (hpre2 : pre.filter isAddEv = []) :
    ((wakeAndRun d s pre).2.2.filter isStartEv).length
        = s.measurementsToAverage ∧
    ((wakeAndRun d s pre).2.2.filter isAddEv).length
        = s.measurementsToAverage ∧
    ∃ q, (wakeAndRun d s pre).2.2 = q ++ [Event.average, Event.notify] := by
  unfold wakeAndRun
  by_cases hb : s.sensorStatus.testBit 4 = true
  · rw [if_pos hb]
    obtain ⟨h1, h2, q, hq⟩ := runCycle_events d s
    refine ⟨?_, ?_, ⟨pre ++ q, ?_⟩⟩
    · show ((pre ++ (runCycle d s).2).filter isStartEv).length
          = s.measurementsToAverage
      rw [List.filter_append, hpre1, List.nil_append, h1]
    · show ((pre ++ (runCycle d s).2).filter isAddEv).length
          = s.measurementsToAverage
      rw [List.filter_append, hpre2, List.nil_append, h2]
    · show pre ++ (runCycle d s).2 = (pre ++ q) ++ [Event.average, Event.notify]
      rw [hq, List.append_assoc]
  · rw [if_neg hb, if_pos (hWakeOk s)]
    obtain ⟨h1, h2, q, hq⟩ := runCycle_events d (d.wake s).1
    rw [hWakeM s] at h1 h2
    refine ⟨?_, ?_, ⟨pre ++ Event.wakeHook :: q, ?_⟩⟩
    · show ((pre ++ Event.wakeHook :: (runCycle d (d.wake s).1).2).filter isStartEv).length
          = s.measurementsToAverage
      rw [List.filter_append, hpre1, List.nil_append, List.filter_cons]
      simpa [isStartEv] using h1
    · show ((pre ++ Event.wakeHook :: (runCycle d (d.wake s).1).2).filter isAddEv).length
          = s.measurementsToAverage
      rw [List.filter_append, hpre2, List.nil_append, List.filter_cons]
      simpa [isAddEv] using h2
    · show pre ++ Event.wakeHook :: (runCycle d (d.wake s).1).2
          = (pre ++ Event.wakeHook :: q) ++ [Event.average, Event.notify]
      rw [hq, List.append_assoc]
      rfl

/-- C8: for any driver whose wake succeeds (and does not reconfigure the
averaging count), `update()` runs the sampling loop exactly
`measurementsToAverage` times — one start and one add event per
iteration, whatever the per-iteration hook results are — and the
averaging and notification steps still follow; a failing iteration never
terminates the cycle early. -/
theorem claim_update_loop_runs_to_completion (d : Driver) (now : Nat)
    (s : Sensor)
    (hWakeOk : ∀ t, (d.wake t).2 = true)
    (hWakeM : ∀ t, (d.wake t).1.measurementsToAverage
        = t.measurementsToAverage) :
    ((update d now s).2.2.filter isStartEv).length
        = s.measurementsToAverage ∧
    ((update d now s).2.2.filter isAddEv).length
        = s.measurementsToAverage ∧
    ∃ q, (update d now s).2.2 = q ++ [Event.average, Event.notify] := by
  unfold update
  by_cases hc : 0 ≤ s.powerPin ∧ s.sensorStatus.testBit 2 = false
  · rw [if_pos hc]
    exact wakeAndRun_completes d (powerUp now s) [Event.powerOn]
      hWakeOk hWakeM (by decide) (by decide)
  · rw [if_neg hc]
    exact wakeAndRun_completes d s [] hWakeOk hWakeM rfl rfl

/-- A driver that wakes fine but whose every sampling iteration fails. -/
def failingSampleDriver : Driver :=
  { wake := fun t => (t, true)
    startSingleMeasurement := fun _ t => (t, false)
    addSingleMeasurementResult := fun _ t => (t, false) }

/-- Witness for C8: with `measurementsToAverage = 3` and every iteration
failing, the trace still holds three start and three add events and ends
with averaging and notification. -/
theorem claim_update_loop_runs_to_completion_witness :
    ((update failingSampleDriver 0 scenarioSensor).2.2.filter isStartEv).length
        = 3 ∧
    ((update failingSampleDriver 0 scenarioSensor).2.2.filter isAddEv).length
        = 3 ∧
    ∃ q, (update failingSampleDriver 0 scenarioSensor).2.2
        = q ++ [Event.average, Event.notify] :=
  claim_update_loop_runs_to_completion failingSampleDriver 0 scenarioSensor
    (fun _ => rfl) (fun _ => rfl)

/-- Feeding the int16_t sentinel `-9999` to the accumulator is a complete
no-op. -/
theorem verifyAndAddInt_sentinel (s : Sensor) (slot : Nat) :
    verifyAndAddMeasurementResultInt s slot (-9999) = s := by
  unfold verifyAndAddMeasurementResultInt
  refine verifyAndAdd_noop s slot _ (Or.inr ?_)
  unfold SENTINEL
  norm_num

/-- The int16_t accumulator overload never touches the status bitfield. -/
theorem verifyAndAddInt_status (s : Sensor) (slot : Nat) (w : Int) :
    (verifyAndAddMeasurementResultInt s slot w).sensorStatus
        = s.sensorStatus :=
  (verifyAndAdd_frame s slot (w : ℚ)).2.2.1

/-- C9: `DigiXBeeCellularBypass::addSingleMeasurementResult` returns true
on every input state; when status bit 6 is clear it never queries the
modem — the outcome is the same for every modem oracle — and it feeds the
sentinel `-9999` to both signal channels, so no channel value changes and
no good-sample counter is incremented. -/
theorem claim_xbee_add_result_ok (modem : Sensor → Int × Int) (s : Sensor) :
    (addSingleMeasurementResultXBee modem s).2 = true ∧
    (s.sensorStatus.testBit 6 = false →
      (∀ modem2 : Sensor → Int × Int,
        addSingleMeasurementResultXBee modem2 s
          = addSingleMeasurementResultXBee modem s) ∧
      (addSingleMeasurementResultXBee modem s).1.sensorValues
          = s.sensorValues ∧
      (addSingleMeasurementResultXBee modem s).1.numberGoodMeasurementsMade
          = s.numberGoodMeasurementsMade) := by
  have hb : ∀ h6 : s.sensorStatus.testBit 6 = false,
      ¬ s.sensorStatus.testBit 6 = true := by
    intro h6 hc
    rw [h6] at hc
    exact Bool.false_ne_true hc
  constructor
  · rfl
  · intro h6
    have hstate : (addSingleMeasurementResultXBee modem s).1
        = { s with
            millisMeasurementRequested := 0
            sensorStatus := s.sensorStatus &&& 159 } := by
      unfold addSingleMeasurementResultXBee
      rw [if_neg (hb h6)]
      show ({ verifyAndAddMeasurementResultInt
          (verifyAndAddMeasurementResultInt s RSSI_VAR_NUM (-9999))
          PERCENT_SIGNAL_VAR_NUM (-9999) with
            millisMeasurementRequested := 0
            sensorStatus := (verifyAndAddMeasurementResultInt
              (verifyAndAddMeasurementResultInt s RSSI_VAR_NUM (-9999))
              PERCENT_SIGNAL_VAR_NUM (-9999)).sensorStatus &&& 159 }, true).1
        = _
      rw [verifyAndAddInt_sentinel, verifyAndAddInt_sentinel]
    refine ⟨?_, ?_, ?_⟩
    · intro modem2
      unfold addSingleMeasurementResultXBee
      rw [if_neg (hb h6), if_neg (hb h6)]
    · rw [hstate]
    · rw [hstate]

/-- Witness for C9 at the scenario sensor (bit 6 clear) with a concrete
modem oracle. -/
theorem claim_xbee_add_result_ok_witness :
    (addSingleMeasurementResultXBee (fun _ => (0, 0)) scenarioSensor).2
        = true ∧
    (addSingleMeasurementResultXBee (fun _ => (0, 0)) scenarioSensor).1.numberGoodMeasurementsMade
        = scenarioSensor.numberGoodMeasurementsMade := by
  obtain ⟨h1, h2⟩ :=
    claim_xbee_add_result_ok (fun _ => (0, 0)) scenarioSensor
  exact ⟨h1, (h2 (by decide)).2.2⟩

/-- C10: on every call, `DigiXBeeCellularBypass::addSingleMeasurementResult`
zeroes `_millisMeasurementRequested` and masks `_sensorStatus` with
`0b10011111`: bits 5 and 6 come out clear and bits 0-4 and 7 keep their
previous values. -/
theorem claim_xbee_add_result_frame (modem : Sensor → Int × Int)
    (s : Sensor) :
    (addSingleMeasurementResultXBee modem s).1.millisMeasurementRequested
        = 0 ∧
    (addSingleMeasurementResultXBee modem s).1.sensorStatus.testBit 5
        = false ∧
    (addSingleMeasurementResultXBee modem s).1.sensorStatus.testBit 6
        = false ∧
    ∀ i, i < 8 → ¬ i = 5 → ¬ i = 6 →
      (addSingleMeasurementResultXBee modem s).1.sensorStatus.testBit i
        = s.sensorStatus.testBit i := by
  have hst : (addSingleMeasurementResultXBee modem s).1.millisMeasurementRequested
      = 0 ∧
      (addSingleMeasurementResultXBee modem s).1.sensorStatus
        = s.sensorStatus &&& 159 := by
    unfold addSingleMeasurementResultXBee
    by_cases hb : s.sensorStatus.testBit 6 = true
    · rw [if_pos hb]
      refine ⟨rfl, ?_⟩
      show (verifyAndAddMeasurementResultInt
          (verifyAndAddMeasurementResultInt s RSSI_VAR_NUM (modem s).1)
          PERCENT_SIGNAL_VAR_NUM (modem s).2).sensorStatus &&& 159
        = s.sensorStatus &&& 159
      rw [verifyAndAddInt_status, verifyAndAddInt_status]
    · rw [if_neg hb]
      refine ⟨rfl, ?_⟩
      show (verifyAndAddMeasurementResultInt
          (verifyAndAddMeasurementResultInt s RSSI_VAR_NUM (-9999))
          PERCENT_SIGNAL_VAR_NUM (-9999)).sensorStatus &&& 159
        = s.sensorStatus &&& 159
      rw [verifyAndAddInt_status, verifyAndAddInt_status]
  refine ⟨hst.1, ?_, ?_, ?_⟩
  · rw [hst.2, Nat.testBit_and, (by decide : Nat.testBit 159 5 = false),
      Bool.and_false]
  · rw [hst.2, Nat.testBit_and, (by decide : Nat.testBit 159 6 = false),
      Bool.and_false]
  · intro i hi h5 h6
    have h159 : Nat.testBit 159 i = true := by
      interval_cases i
      · decide
      · decide
      · decide
      · decide
      · decide
      · exact absurd rfl h5
      · exact absurd rfl h6
      · decide
    rw [hst.2, Nat.testBit_and, h159, Bool.and_true]

/-- Witness for C10 at the pending-measurement sensor (bit 6 set): the
request timestamp is zeroed, bit 6 comes out clear, and bit 0 is kept. -/
theorem claim_xbee_add_result_frame_witness :
    (addSingleMeasurementResultXBee (fun _ => (0, 0)) pendingSensor).1.millisMeasurementRequested
        = 0 ∧
    (addSingleMeasurementResultXBee (fun _ => (0, 0)) pendingSensor).1.sensorStatus.testBit 6
        = false ∧
    (addSingleMeasurementResultXBee (fun _ => (0, 0)) pendingSensor).1.sensorStatus.testBit 0
        = pendingSensor.sensorStatus.testBit 0 := by
  obtain ⟨h1, _, h6, hrest⟩ :=
    claim_xbee_add_result_frame (fun _ => (0, 0)) pendingSensor
  exact ⟨h1, h6, hrest 0 (by decide) (by decide) (by decide)⟩
